import Mathlib

/-!
Verification development for the device-abstracted tensor and memory-resource
layer of `matlab/src/bits/data.hpp` (namespace `vl`).

The repository ships only the header: the inline functions
(`getDataTypeSizeInBytes`, `divideAndRoundUp`, `areCompatible`) are embedded
directly from the source; the out-of-line member functions of `Buffer`,
`Context`, `TensorShape` and `Tensor` are declared in the header but their
bodies are not in the repository, so they are modelled from the spec
(each such definition carries a `Modelled from the spec:` doc comment).

Machine integers (`size_t`, `ptrdiff_t`) are embedded as `Nat`/`Int`;
raw memory blocks are embedded as `Option (List Int)` (`none` = no handle,
`some l` = an allocated block whose cell values are the entries of `l`);
freshly allocated memory is modelled as zero-filled (standing for
indeterminate content, in particular content that is not the value 1).
Allocation is modelled as always succeeding; the out-of-memory failure
paths are outside the scope of the claims treated here.
-/

namespace vl

/-- Error codes, from `enum ErrorCode` in data.hpp (the spelling
`VLE_OutOfGPUMemeory` is the source's). -/
inductive ErrorCode where
  | VLE_Success
  | VLE_Unsupported
  | VLE_Cuda
  | VLE_Cudnn
  | VLE_Cublas
  | VLE_OutOfMemory
  | VLE_OutOfGPUMemeory
  | VLE_IllegalArgument
  | VLE_Unknown
  | VLE_Timeout
  | VLE_NoData
  | VLE_IllegalMessage
  | VLE_Interrupted
deriving DecidableEq

export ErrorCode (VLE_Success VLE_Unsupported VLE_Cuda VLE_Cudnn VLE_Cublas
  VLE_OutOfMemory VLE_OutOfGPUMemeory VLE_IllegalArgument VLE_Unknown
  VLE_Timeout VLE_NoData VLE_IllegalMessage VLE_Interrupted)

/-- Device type, from `enum DeviceType`: CPU (host) or GPU (accelerator). -/
inductive DeviceType where
  | VLDT_CPU
  | VLDT_GPU
deriving DecidableEq

export DeviceType (VLDT_CPU VLDT_GPU)

/-- Data type, from `enum DataType`: char, float or double. -/
inductive DataType where
  | VLDT_Char
  | VLDT_Float
  | VLDT_Double
deriving DecidableEq

export DataType (VLDT_Char VLDT_Float VLDT_Double)

/-- The underlying integer value of a `DataType` enumerator, following the
C++ enum numbering (`VLDT_Char = 0`, `VLDT_Float = 1`, `VLDT_Double = 2`). -/
def DataType.code : DataType → Nat
  | VLDT_Char => 0
  | VLDT_Float => 1
  | VLDT_Double => 2

/-- `vl::getDataTypeSizeInBytes`, embedded from the source `switch` over the
raw enum value (so that the `default` branch is reachable, as it is in C++
where an enum object may hold an out-of-range value):
`case VLDT_Char: return sizeof(char)`, `case VLDT_Float: return sizeof(float)`,
`case VLDT_Double: return sizeof(double)`, `default: return 0`.
Byte sizes use the conventional model `sizeof(char) = 1`,
`sizeof(float) = 4`, `sizeof(double) = 8`. -/
def getDataTypeSizeInBytes (dataType : Nat) : Nat :=
  match dataType with
  | 0 => 1
  | 1 => 4
  | 2 => 8
  | _ => 0

/-- Byte size of a (well-formed) `DataType` value. -/
def DataType.sizeInBytes (t : DataType) : Nat :=
  getDataTypeSizeInBytes t.code

/-- `vl::divideAndRoundUp`, embedded from the source:
`return (a + b - 1) / b ;` with C++ signed integer division
(truncation toward zero, `Int.tdiv`). -/
def divideAndRoundUp (a b : Int) : Int :=
  (a + b - 1).tdiv b

/- -------------------------------------------------------------------
   Buffer (vl::impl::Buffer)
   ------------------------------------------------------------------- -/

/-- `vl::impl::Buffer`: a lazily-(re)allocated, device-typed raw memory
region with reallocation accounting.  Fields follow the header:
`deviceType`, `dataType`, `size` (requested logical size, in elements),
`memory` (the handle: `none` when no memory is held), `numReallocations`.
`numGpuFrees` is a ghost field counting device-side (GPU) deallocations
performed, used to state that `invalidateGpu` performs none. -/
structure Buffer where
  deviceType : DeviceType
  dataType : DataType
  size : Nat
  memory : Option (List Int)
  numReallocations : Nat
  numGpuFrees : Nat
deriving DecidableEq

/-- A `Buffer` as default-constructed: empty, host device, char data. -/
def Buffer.empty : Buffer :=
  { deviceType := VLDT_CPU
    dataType := VLDT_Char
    size := 0
    memory := none
    numReallocations := 0
    numGpuFrees := 0 }

/-- Currently held capacity in bytes, accounting for the data-type size. -/
def Buffer.capacityBytes (b : Buffer) : Nat :=
  b.size * b.dataType.sizeInBytes

/-- Modelled from the spec: `Buffer::clear` (body not in the repository) —
release memory (device-appropriate deallocation, counted by the
`numGpuFrees` ghost field when the buffer holds GPU memory), reset size
to 0, device/type left as last configured, reallocation counter unchanged. -/
def Buffer.clear (b : Buffer) : Buffer :=
  { b with
    size := 0
    memory := none
    numGpuFrees :=
      b.numGpuFrees + (if b.deviceType = VLDT_GPU ∧ b.memory.isSome then 1 else 0) }

/-- Modelled from the spec: `Buffer::init` (body not in the repository) —
if `size` is 0, releases any held memory and succeeds trivially; if the
currently held capacity in bytes is at least the requested size in bytes
and the device/type match the previous allocation, no-op success;
otherwise release any existing memory, allocate fresh memory of exactly
the requested size on the requested device, increment the reallocation
counter, and update the stored device/type/size.  Allocation is modelled
as always succeeding, with indeterminate (zero-filled) fresh content. -/
def Buffer.init (b : Buffer) (deviceType : DeviceType) (dataType : DataType)
    (size : Nat) : Buffer :=
  if size = 0 then
    b.clear
  else if size * dataType.sizeInBytes ≤ b.capacityBytes
          ∧ b.deviceType = deviceType ∧ b.dataType = dataType then
    b
  else
    { deviceType := deviceType
      dataType := dataType
      size := size
      memory := some (List.replicate size 0)
      numReallocations := b.numReallocations + 1
      numGpuFrees := b.clear.numGpuFrees }

/-- `Buffer::getMemory`. -/
def Buffer.getMemory (b : Buffer) : Option (List Int) :=
  b.memory

/-- `Buffer::getNumReallocations`. -/
def Buffer.getNumReallocations (b : Buffer) : Nat :=
  b.numReallocations

/-- Modelled from the spec: `Buffer::invalidateGpu` (body not in the
repository) — if the device is the accelerator, drop the handle and zero
the size WITHOUT invoking a device-side free (`numGpuFrees` unchanged);
no-op for host buffers. -/
def Buffer.invalidateGpu (b : Buffer) : Buffer :=
  if b.deviceType = VLDT_GPU then { b with memory := none, size := 0 } else b

/- -------------------------------------------------------------------
   Context (vl::Context)
   ------------------------------------------------------------------- -/

/-- `vl::Context`: two `Buffer` pools (workspace, all-ones), one buffer per
device each, the last-error slot (code and message), and the lazily
constructed accelerator capability (`cudaHelper`, modelled as a flag
recording whether the capability object currently exists). -/
structure Context where
  workspaceCPU : Buffer
  workspaceGPU : Buffer
  allOnesCPU : Buffer
  allOnesGPU : Buffer
  lastError : ErrorCode
  lastErrorMessage : String
  cudaHelper : Bool
deriving DecidableEq

/-- A `Context` as constructed: empty buffers, `VLE_Success`, empty
message, no accelerator capability yet. -/
def Context.new : Context :=
  { workspaceCPU := Buffer.empty
    workspaceGPU := Buffer.empty
    allOnesCPU := Buffer.empty
    allOnesGPU := Buffer.empty
    lastError := VLE_Success
    lastErrorMessage := ""
    cudaHelper := false }

/-- The workspace buffer for a device (`workspace[deviceType]`). -/
def Context.workspace (c : Context) : DeviceType → Buffer
  | VLDT_CPU => c.workspaceCPU
  | VLDT_GPU => c.workspaceGPU

/-- The all-ones buffer for a device (`allOnes[deviceType]`). -/
def Context.allOnes (c : Context) : DeviceType → Buffer
  | VLDT_CPU => c.allOnesCPU
  | VLDT_GPU => c.allOnesGPU

/-- Replace the workspace buffer for a device. -/
def Context.setWorkspace (c : Context) (d : DeviceType) (b : Buffer) : Context :=
  match d with
  | VLDT_CPU => { c with workspaceCPU := b }
  | VLDT_GPU => { c with workspaceGPU := b }

/-- Replace the all-ones buffer for a device. -/
def Context.setAllOnes (c : Context) (d : DeviceType) (b : Buffer) : Context :=
  match d with
  | VLDT_CPU => { c with allOnesCPU := b }
  | VLDT_GPU => { c with allOnesGPU := b }

/-- Modelled from the spec: `Context::setError` (body not in the
repository) — always overwrites the last error (code and message) and
returns the code. -/
def Context.setError (c : Context) (error : ErrorCode) (message : String) :
    ErrorCode × Context :=
  (error, { c with lastError := error, lastErrorMessage := message })

/-- Modelled from the spec: `Context::passError` (body not in the
repository) — moves the last-error slot to the given code unconditionally,
annotating the stored message with additional context while preserving the
original code, and likewise returns the code. -/
def Context.passError (c : Context) (error : ErrorCode) (message : String) :
    ErrorCode × Context :=
  (error,
   { c with
     lastError := error
     lastErrorMessage := message ++ ": " ++ c.lastErrorMessage })

/-- Modelled from the spec: `Context::resetLastError` (body not in the
repository) — sets the code to success and clears the message. -/
def Context.resetLastError (c : Context) : Context :=
  { c with lastError := VLE_Success, lastErrorMessage := "" }

/-- `Context::getLastError`. -/
def Context.getLastError (c : Context) : ErrorCode :=
  c.lastError

/-- Modelled from the spec: `Context::getWorkspace` (body not in the
repository) — ensures the workspace buffer for the device has capacity at
least `size` bytes via `Buffer::init` (workspace memory is untyped, char
elements) and returns its memory handle. -/
def Context.getWorkspace (c : Context) (deviceType : DeviceType) (size : Nat) :
    Option (List Int) × Context :=
  let b := (c.workspace deviceType).init deviceType VLDT_Char size
  (b.getMemory, c.setWorkspace deviceType b)

/-- Modelled from the spec: `Context::clearWorkspace` (body not in the
repository) — release the workspace buffer for one device without
touching the other device's state. -/
def Context.clearWorkspace (c : Context) (deviceType : DeviceType) : Context :=
  c.setWorkspace deviceType ((c.workspace deviceType).clear)

/-- Modelled from the spec: the buffer-level step of `Context::getAllOnes`
(body not in the repository) — ensures, via `Buffer::init`, a buffer of
`size` elements of `dataType` for the device; if the call (re)allocated
the buffer (detected by the reallocation counter having grown), re-fills
it with the value 1; the re-fill is skipped only when the existing buffer
already satisfied size/type/device (and was previously filled). -/
def Context.getAllOnesBuffer (b0 : Buffer) (deviceType : DeviceType)
    (dataType : DataType) (size : Nat) : Buffer :=
  if b0.getNumReallocations
      < (b0.init deviceType dataType size).getNumReallocations then
    { b0.init deviceType dataType size with
      memory := (b0.init deviceType dataType size).memory.map
        (fun _ => List.replicate (b0.init deviceType dataType size).size 1) }
  else b0.init deviceType dataType size

/-- Modelled from the spec: `Context::getAllOnes`, the `Context`-level
wrapper — applies `getAllOnesBuffer` to the all-ones buffer of the device
and returns the resulting memory handle. -/
def Context.getAllOnes (c : Context) (deviceType : DeviceType)
    (dataType : DataType) (size : Nat) : Option (List Int) × Context :=
  let b2 := Context.getAllOnesBuffer (c.allOnes deviceType) deviceType dataType size
  (b2.getMemory, c.setAllOnes deviceType b2)

/-- Modelled from the spec: `Context::clearAllOnes` (body not in the
repository) — release the all-ones buffer for one device without touching
the other device's state. -/
def Context.clearAllOnes (c : Context) (deviceType : DeviceType) : Context :=
  c.setAllOnes deviceType ((c.allOnes deviceType).clear)

/-- Modelled from the spec: `Context::getCudaHelper` (body not in the
repository) — lazily constructs the accelerator capability object;
subsequent calls return the same instance.  Only the state effect is
modelled. -/
def Context.getCudaHelper (c : Context) : Context :=
  { c with cudaHelper := true }

/-- Modelled from the spec: `Context::clear` (body not in the repository) —
clears both workspace buffers and both all-ones buffers, and resets the
last error to success with an empty message; does not destroy the
accelerator capability object. -/
def Context.clear (c : Context) : Context :=
  { c with
    workspaceCPU := c.workspaceCPU.clear
    workspaceGPU := c.workspaceGPU.clear
    allOnesCPU := c.allOnesCPU.clear
    allOnesGPU := c.allOnesGPU.clear
    lastError := VLE_Success
    lastErrorMessage := "" }

/-- Modelled from the spec: `Context::invalidateGpu` (body not in the
repository) — calls `invalidateGpu` on all accelerator-side buffers and
marks the accelerator capability as needing re-acquisition on next use;
host-side state and the last error are untouched. -/
def Context.invalidateGpu (c : Context) : Context :=
  { c with
    workspaceGPU := c.workspaceGPU.invalidateGpu
    allOnesGPU := c.allOnesGPU.invalidateGpu
    cudaHelper := false }

/-- The all-ones buffer invariant: if no memory is held the size is 0, and
any held memory block consists exactly of `size` copies of the value 1.
This is the property `getAllOnes` establishes and all other operations
preserve. -/
def AllOnesInv (b : Buffer) : Prop :=
  (b.memory = none → b.size = 0)
  ∧ ∀ l, b.memory = some l → l = List.replicate b.size 1

/- -------------------------------------------------------------------
   TensorShape and Tensor
   ------------------------------------------------------------------- -/

/-- `vl::TensorShape`: an ordered sequence of non-negative dimension sizes
(the source stores up to `maxNumDimensions = 8` of them together with
`numDimensions`; here the sequence is a list whose length is
`numDimensions` — no claim treated below depends on the bound 8). -/
structure TensorShape where
  dims : List Nat
deriving DecidableEq

/-- `TensorShape::getNumDimensions`. -/
def TensorShape.numDimensions (s : TensorShape) : Nat :=
  s.dims.length

/-- Modelled from the spec: `TensorShape::getNumElements` (body not in the
repository) — the product of all dimensions (computed as a running
product, 1 for an empty shape by convention). -/
def TensorShape.getNumElements (s : TensorShape) : Nat :=
  s.dims.foldl (fun n d => n * d) 1

/-- Modelled from the spec: `TensorShape::isEmpty` (body not in the
repository) — true iff the shape has no dimensions or any dimension is 0. -/
def TensorShape.isEmpty (s : TensorShape) : Bool :=
  decide (s.numDimensions = 0) || s.dims.contains 0

/-- `vl::Tensor`: a `TensorShape` plus device type, data type, a memory
handle (the tensor never owns it; `none` models a null pointer) and the
handle's capacity in bytes.  The C++ class inherits from `TensorShape`;
here the shape is the `toTensorShape` parent field. -/
structure Tensor extends TensorShape where
  deviceType : DeviceType
  dataType : DataType
  memory : Option Nat
  memorySize : Nat
deriving DecidableEq

/-- `Tensor` inherits `isEmpty` from `TensorShape`. -/
def Tensor.isEmpty (t : Tensor) : Bool :=
  t.toTensorShape.isEmpty

/-- Modelled from the spec: `Tensor::isNull` (body not in the repository) —
a tensor is null when it has no memory handle. -/
def Tensor.isNull (t : Tensor) : Bool :=
  t.memory.isNone

/-- `Tensor::getDeviceType`. -/
def Tensor.getDeviceType (t : Tensor) : DeviceType :=
  t.deviceType

/-- `Tensor::getDataType`. -/
def Tensor.getDataType (t : Tensor) : DataType :=
  t.dataType

/-- `vl::areCompatible`, embedded from the source:
`(a.isEmpty() || a.isNull()) || (b.isEmpty() || b.isNull()) ||
((a.getDeviceType() == b.getDeviceType()) & (a.getDataType() == b.getDataType()))`. -/
def areCompatible (a b : Tensor) : Bool :=
  (a.isEmpty || a.isNull) ||
  (b.isEmpty || b.isNull) ||
  (decide (a.getDeviceType = b.getDeviceType) &&
   decide (a.getDataType = b.getDataType))

/- -------------------------------------------------------------------
   Helper lemmas
   ------------------------------------------------------------------- -/

/-- Every well-formed data type has a positive byte size. -/
theorem DataType.sizeInBytes_pos (t : DataType) : 0 < t.sizeInBytes := by
  cases t <;> decide

/-- A zero-size `init` is exactly a `clear`. -/
theorem Buffer.init_zero (b : Buffer) (d : DeviceType) (t : DataType) :
    b.init d t 0 = b.clear := by
  rw [Buffer.init, if_pos rfl]

/-- A fitting `init` with matching device/type is a no-op. -/
theorem Buffer.init_noop (b : Buffer) (d : DeviceType) (t : DataType) (s : Nat)
    (hs : s ≠ 0) (hfit : s * t.sizeInBytes ≤ b.capacityBytes)
    (hd : b.deviceType = d) (ht : b.dataType = t) :
    b.init d t s = b := by
  rw [Buffer.init, if_neg hs, if_pos ⟨hfit, hd, ht⟩]

/-- After an `init` the buffer has zero size or carries the requested
device and data type. -/
theorem Buffer.init_matches (b : Buffer) (d : DeviceType) (t : DataType)
    (s : Nat) (hsize : (b.init d t s).size ≠ 0) :
    (b.init d t s).deviceType = d ∧ (b.init d t s).dataType = t := by
  rcases Nat.eq_zero_or_pos s with hs | hs
  · subst hs
    rw [Buffer.init_zero] at hsize
    exact absurd rfl hsize
  · rw [Buffer.init, if_neg (Nat.pos_iff_ne_zero.mp hs)]
    split
    · rename_i hc
      exact ⟨hc.2.1, hc.2.2⟩
    · exact ⟨rfl, rfl⟩

/-- A positive request fitting a matching buffer is an exact no-op. -/
theorem Buffer.init_fits (b : Buffer) (d : DeviceType) (t : DataType) (s : Nat)
    (hs : s ≠ 0) (hle : s ≤ b.size) (hd : b.deviceType = d)
    (ht : b.dataType = t) :
    b.init d t s = b := by
  refine Buffer.init_noop b d t s hs ?_ hd ht
  rw [Buffer.capacityBytes, ht]
  exact Nat.mul_le_mul_right _ hle

/-- A request strictly larger than the held size reallocates: the counter
grows by one and the new size is exactly the request. -/
theorem Buffer.init_grows (b : Buffer) (d : DeviceType) (t : DataType) (s : Nat)
    (hlt : b.size < s) :
    (b.init d t s).numReallocations = b.numReallocations + 1
  ∧ (b.init d t s).size = s := by
  have hs : s ≠ 0 := by omega
  have hnofit : ¬(s * t.sizeInBytes ≤ b.capacityBytes
                  ∧ b.deviceType = d ∧ b.dataType = t) := by
    rintro ⟨hfit, -, ht⟩
    rw [Buffer.capacityBytes, ht] at hfit
    have := Nat.le_of_mul_le_mul_right hfit (DataType.sizeInBytes_pos t)
    omega
  rw [Buffer.init, if_neg hs, if_neg hnofit]
  exact ⟨rfl, rfl⟩

/-- The explicit result of a reallocating `init`. -/
theorem Buffer.init_realloc_eq (b : Buffer) (d : DeviceType) (t : DataType)
    (s : Nat) (hs : s ≠ 0)
    (hnofit : ¬(s * t.sizeInBytes ≤ b.capacityBytes
                ∧ b.deviceType = d ∧ b.dataType = t)) :
    b.init d t s =
      { deviceType := d
        dataType := t
        size := s
        memory := some (List.replicate s 0)
        numReallocations := b.numReallocations + 1
        numGpuFrees := b.clear.numGpuFrees } := by
  rw [Buffer.init, if_neg hs, if_neg hnofit]

/-- A cleared buffer satisfies the all-ones invariant vacuously. -/
theorem allOnesInv_clear (b : Buffer) : AllOnesInv b.clear :=
  ⟨fun _ => rfl, fun _ hl => nomatch hl⟩

/-- An invalidated buffer keeps the all-ones invariant. -/
theorem allOnesInv_invalidateGpu (b : Buffer) (h : AllOnesInv b) :
    AllOnesInv b.invalidateGpu := by
  rw [Buffer.invalidateGpu]
  split
  · exact ⟨fun _ => rfl, fun _ hl => nomatch hl⟩
  · exact h

/-- A fresh context's all-ones buffers satisfy the invariant. -/
theorem allOnesInv_new (dev : DeviceType) :
    AllOnesInv (Context.new.allOnes dev) := by
  cases dev <;> exact ⟨fun _ => rfl, fun _ hl => nomatch hl⟩

/-- Reading back the all-ones buffer just stored for a device. -/
theorem Context.allOnes_setAllOnes (c : Context) (dev : DeviceType) (b : Buffer) :
    (c.setAllOnes dev b).allOnes dev = b := by
  cases dev <;> rfl

/-- Every other `Context` operation preserves the all-ones invariant of
each device's all-ones buffer (so the hypothesis of the `getAllOnes`
theorem holds in every reachable context). -/
theorem allOnesInv_preserved (c : Context) (dev dev2 : DeviceType)
    (e : ErrorCode) (m : String) (n : Nat)
    (h : AllOnesInv (c.allOnes dev)) :
    AllOnesInv (c.clear.allOnes dev)
  ∧ AllOnesInv ((c.clearAllOnes dev2).allOnes dev)
  ∧ AllOnesInv ((c.clearWorkspace dev2).allOnes dev)
  ∧ AllOnesInv ((c.getWorkspace dev2 n).2.allOnes dev)
  ∧ AllOnesInv (c.invalidateGpu.allOnes dev)
  ∧ AllOnesInv ((c.setError e m).2.allOnes dev)
  ∧ AllOnesInv ((c.passError e m).2.allOnes dev)
  ∧ AllOnesInv (c.resetLastError.allOnes dev)
  ∧ AllOnesInv (c.getCudaHelper.allOnes dev) := by
  refine ⟨?_, ?_, ?_, ?_, ?_, h, h, h, h⟩
  · cases dev <;> exact allOnesInv_clear _
  · cases dev <;> cases dev2 <;> first
      | exact allOnesInv_clear _
      | exact h
  · cases dev <;> cases dev2 <;> exact h
  · cases dev <;> cases dev2 <;> exact h
  · cases dev
    · exact h
    · exact allOnesInv_invalidateGpu _ h

/- -------------------------------------------------------------------
   Claim theorems
   ------------------------------------------------------------------- -/

/-- C1 counterexample: capacity is NOT monotonically non-decreasing
across `init` calls with a fixed device/type until `clear` is called —
an `init` with size 0 releases the held memory, dropping the capacity
to 0 (here: `init(CPU, Float, 1)` then `init(CPU, Float, 0)`). -/
theorem C1_capacity_monotone_counterexample :
    ¬ ∀ (b : Buffer) (d : DeviceType) (t : DataType) (s : Nat),
        b.capacityBytes ≤ (b.init d t s).capacityBytes := by
  intro h
  exact absurd
    (h (Buffer.empty.init VLDT_CPU VLDT_Float 1) VLDT_CPU VLDT_Float 0)
    (by decide)

/-- C1 (amended): for `init(d, t, s1)` then `init(d, t, s2)` with the same
device and data type: if `s2` is within the size established by the first
call, the second call leaves the reallocation counter unchanged; if `s2`
exceeds it, the counter increments by exactly 1 and the resulting size is
at least (exactly) `s2`; and capacity is monotonically non-decreasing
across `init` calls with positive requested size — while an `init` with
size 0 releases the memory, resetting the capacity to 0 (still without
changing the counter). -/
theorem C1_buffer_init_growth (b0 : Buffer) (d : DeviceType) (t : DataType)
    (s1 s2 : Nat) :
    (s2 ≤ (b0.init d t s1).size →
      ((b0.init d t s1).init d t s2).numReallocations
        = (b0.init d t s1).numReallocations)
  ∧ ((b0.init d t s1).size < s2 →
      ((b0.init d t s1).init d t s2).numReallocations
        = (b0.init d t s1).numReallocations + 1
      ∧ s2 ≤ ((b0.init d t s1).init d t s2).size)
  ∧ (0 < s2 →
      (b0.init d t s1).size ≤ ((b0.init d t s1).init d t s2).size)
  ∧ (s2 = 0 →
      ((b0.init d t s1).init d t s2).numReallocations
        = (b0.init d t s1).numReallocations
      ∧ ((b0.init d t s1).init d t s2).capacityBytes = 0) := by
  refine ⟨?_, ?_, ?_, ?_⟩
  · intro h
    rcases Nat.eq_zero_or_pos s2 with h2 | h2
    · subst h2
      rw [Buffer.init_zero]
      rfl
    · have hsize : (b0.init d t s1).size ≠ 0 := by omega
      obtain ⟨hd, ht⟩ := Buffer.init_matches b0 d t s1 hsize
      rw [Buffer.init_fits _ d t s2 (by omega) h hd ht]
  · intro h
    obtain ⟨hc, hsz⟩ := Buffer.init_grows (b0.init d t s1) d t s2 h
    exact ⟨hc, le_of_eq hsz.symm⟩
  · intro h2
    rcases le_or_lt s2 (b0.init d t s1).size with hle | hlt
    · have hsize : (b0.init d t s1).size ≠ 0 := by omega
      obtain ⟨hd, ht⟩ := Buffer.init_matches b0 d t s1 hsize
      rw [Buffer.init_fits _ d t s2 (by omega) hle hd ht]
    · obtain ⟨-, hsz⟩ := Buffer.init_grows (b0.init d t s1) d t s2 hlt
      omega
  · intro h2
    subst h2
    rw [Buffer.init_zero]
    exact ⟨rfl, by simp [Buffer.capacityBytes, Buffer.clear]⟩

/-- C1 witness: after `init(CPU, Float, 2)`, a smaller request
`init(CPU, Float, 1)` leaves the reallocation counter unchanged, and a
larger request `init(CPU, Float, 3)` increments it by exactly 1. -/
theorem C1_buffer_init_growth_witness :
    ((Buffer.empty.init VLDT_CPU VLDT_Float 2).init VLDT_CPU VLDT_Float 1).numReallocations
      = (Buffer.empty.init VLDT_CPU VLDT_Float 2).numReallocations
  ∧ ((Buffer.empty.init VLDT_CPU VLDT_Float 2).init VLDT_CPU VLDT_Float 3).numReallocations
      = (Buffer.empty.init VLDT_CPU VLDT_Float 2).numReallocations + 1 :=
  ⟨(C1_buffer_init_growth Buffer.empty VLDT_CPU VLDT_Float 2 1).1 (by decide),
   ((C1_buffer_init_growth Buffer.empty VLDT_CPU VLDT_Float 2 3).2.1 (by decide)).1⟩

/-- C10: `getDataTypeSizeInBytes` is total on all raw `DataType` values:
it returns `sizeof(char) = 1` for `VLDT_Char` (code 0), `sizeof(float) = 4`
for `VLDT_Float` (code 1), `sizeof(double) = 8` for `VLDT_Double` (code 2),
and 0 for any other input value. -/
theorem C10_getDataTypeSizeInBytes_total :
    getDataTypeSizeInBytes VLDT_Char.code = 1
  ∧ getDataTypeSizeInBytes VLDT_Float.code = 4
  ∧ getDataTypeSizeInBytes VLDT_Double.code = 8
  ∧ ∀ d : Nat, 3 ≤ d → getDataTypeSizeInBytes d = 0 := by
  refine ⟨rfl, rfl, rfl, ?_⟩
  intro d hd
  match d, hd with
  | (n + 3), _ => rfl

/-- C10 witness: out-of-range enum value 7 maps to size 0. -/
theorem C10_getDataTypeSizeInBytes_total_witness :
    getDataTypeSizeInBytes 7 = 0 :=
  C10_getDataTypeSizeInBytes_total.2.2.2 7 (by decide)

/-- C9: for `a ≥ 0` and `b > 0`, `divideAndRoundUp a b` is the smallest
integer `q` with `q * b ≥ a` (the ceiling of `a / b`). -/
theorem C9_divideAndRoundUp_ceil (a b : Int) (ha : 0 ≤ a) (hb : 0 < b) :
    a ≤ divideAndRoundUp a b * b
  ∧ ∀ q : Int, a ≤ q * b → divideAndRoundUp a b ≤ q := by
  have hnn : 0 ≤ a + b - 1 := by omega
  have htd : divideAndRoundUp a b = (a + b - 1) / b := by
    unfold divideAndRoundUp
    exact Int.tdiv_eq_ediv hnn hb.le
  have hdm : b * ((a + b - 1) / b) + (a + b - 1) % b = a + b - 1 :=
    Int.ediv_add_emod _ _
  have hr0 : 0 ≤ (a + b - 1) % b := Int.emod_nonneg _ (by omega)
  have hrb : (a + b - 1) % b < b := Int.emod_lt_of_pos _ hb
  constructor
  · rw [htd, mul_comm]
    linarith
  · intro q hq
    rw [htd]
    by_contra hlt
    push_neg at hlt
    have h1 : q + 1 ≤ (a + b - 1) / b := by omega
    have h2 : (q + 1) * b ≤ ((a + b - 1) / b) * b :=
      mul_le_mul_of_nonneg_right h1 hb.le
    have h3 : ((a + b - 1) / b) * b ≤ a + b - 1 := by
      rw [mul_comm]
      linarith
    have h4 : (q + 1) * b = q * b + b := by ring
    linarith

/-- C9 witness: `divideAndRoundUp 7 3 = 3` is an upper cover of 7. -/
theorem C9_divideAndRoundUp_ceil_witness :
    (7 : Int) ≤ divideAndRoundUp 7 3 * 3 :=
  (C9_divideAndRoundUp_ceil 7 3 (by decide) (by decide)).1

/-- C8: `TensorShape::getNumElements` returns the product of all the
dimensions, and 1 when the shape has no dimensions. -/
theorem C8_getNumElements_prod (s : TensorShape) :
    s.getNumElements = s.dims.prod
  ∧ (s.numDimensions = 0 → s.getNumElements = 1) := by
  have hp : s.getNumElements = s.dims.prod := by
    rw [TensorShape.getNumElements, List.prod_eq_foldl]
  refine ⟨hp, fun h => ?_⟩
  have hnil : s.dims = [] := List.length_eq_zero.mp h
  rw [hp, hnil]
  rfl

/-- C8 witness: the empty shape has one element. -/
theorem C8_getNumElements_prod_witness :
    (TensorShape.mk []).getNumElements = 1 :=
  (C8_getNumElements_prod (TensorShape.mk [])).2 rfl

/-- C7: `TensorShape::isEmpty` is true iff the shape has no dimensions or
some dimension is 0; in particular it is true for the shapes `{}` and
`{3,0,5}` and false for `{1,1,1}`. -/
theorem C7_isEmpty_iff (s : TensorShape) :
    (s.isEmpty = true ↔ (s.numDimensions = 0 ∨ 0 ∈ s.dims))
  ∧ (TensorShape.mk []).isEmpty = true
  ∧ (TensorShape.mk [3, 0, 5]).isEmpty = true
  ∧ (TensorShape.mk [1, 1, 1]).isEmpty = false := by
  refine ⟨?_, by decide, by decide, by decide⟩
  rw [TensorShape.isEmpty]
  simp [List.contains]

/-- C2: `areCompatible a b` is true whenever either tensor is null (no
memory handle) or empty (empty shape), regardless of the other tensor's
device type and data type. -/
theorem C2_areCompatible_wildcard (a b : Tensor)
    (h : a.isNull = true ∨ a.isEmpty = true
       ∨ b.isNull = true ∨ b.isEmpty = true) :
    areCompatible a b = true := by
  rw [areCompatible]
  rcases h with h | h | h | h <;> simp [h]

/-- C2 witness: a null host char tensor is compatible with a non-null GPU
float tensor. -/
theorem C2_areCompatible_wildcard_witness :
    areCompatible
      (Tensor.mk (TensorShape.mk [2]) VLDT_CPU VLDT_Char none 0)
      (Tensor.mk (TensorShape.mk [2]) VLDT_GPU VLDT_Float (some 7) 8) = true :=
  C2_areCompatible_wildcard _ _ (Or.inl (by decide))

/-- C3 counterexample: the claim "both non-empty and differing device
types implies incompatible" is false — a non-empty but null tensor is a
wildcard, so `areCompatible` returns true even though both tensors are
non-empty and their device types differ. -/
theorem C3_areCompatible_counterexample :
    (Tensor.mk (TensorShape.mk [1]) VLDT_CPU VLDT_Float none 0).isEmpty = false
  ∧ (Tensor.mk (TensorShape.mk [1]) VLDT_GPU VLDT_Float (some 7) 4).isEmpty = false
  ∧ (Tensor.mk (TensorShape.mk [1]) VLDT_CPU VLDT_Float none 0).getDeviceType
      ≠ (Tensor.mk (TensorShape.mk [1]) VLDT_GPU VLDT_Float (some 7) 4).getDeviceType
  ∧ areCompatible
      (Tensor.mk (TensorShape.mk [1]) VLDT_CPU VLDT_Float none 0)
      (Tensor.mk (TensorShape.mk [1]) VLDT_GPU VLDT_Float (some 7) 4) = true := by
  decide

/-- C3 (amended): for tensors that are both non-empty AND non-null,
differing device types imply `areCompatible` returns false. -/
theorem C3_areCompatible_incompatible (a b : Tensor)
    (hae : a.isEmpty = false) (han : a.isNull = false)
    (hbe : b.isEmpty = false) (hbn : b.isNull = false)
    (hd : a.getDeviceType ≠ b.getDeviceType) :
    areCompatible a b = false := by
  rw [areCompatible]
  simp [hae, han, hbe, hbn, hd]

/-- C3 (amended) witness: non-null non-empty tensors on different devices
are incompatible. -/
theorem C3_areCompatible_incompatible_witness :
    areCompatible
      (Tensor.mk (TensorShape.mk [1]) VLDT_CPU VLDT_Float (some 3) 4)
      (Tensor.mk (TensorShape.mk [1]) VLDT_GPU VLDT_Float (some 7) 4) = false :=
  C3_areCompatible_incompatible _ _ (by decide) (by decide) (by decide)
    (by decide) (by decide)

/-- C4 counterexample: the claim "no Context operation other than
setError, passError, and resetLastError changes the slot" is false —
`Context::clear` also resets the last error to `VLE_Success`, so on a
context whose last error is `VLE_OutOfMemory` it changes the slot. -/
theorem C4_errorSlot_counterexample :
    (Context.clear (Context.new.setError VLE_OutOfMemory "msg").2).lastError
      ≠ ((Context.new.setError VLE_OutOfMemory "msg").2).lastError := by
  decide

/-- C4 (amended): the last-error slot starts in `VLE_Success`; `setError`
and `passError` move it unconditionally to the given code and return that
code; `resetLastError` forces `VLE_Success` with an empty message; and no
Context operation other than `setError`, `passError`, `resetLastError`
and `clear` changes the slot (`clear` resets it to `VLE_Success`). -/
theorem C4_errorSlot_stateMachine (c : Context) (e : ErrorCode) (m : String)
    (dev : DeviceType) (t : DataType) (n : Nat) :
    Context.new.lastError = VLE_Success
  ∧ (c.setError e m).1 = e
  ∧ (c.setError e m).2.lastError = e
  ∧ (c.passError e m).1 = e
  ∧ (c.passError e m).2.lastError = e
  ∧ c.resetLastError.lastError = VLE_Success
  ∧ c.resetLastError.lastErrorMessage = ""
  ∧ (c.getWorkspace dev n).2.lastError = c.lastError
  ∧ (c.getAllOnes dev t n).2.lastError = c.lastError
  ∧ (c.clearWorkspace dev).lastError = c.lastError
  ∧ (c.clearAllOnes dev).lastError = c.lastError
  ∧ c.invalidateGpu.lastError = c.lastError
  ∧ c.getCudaHelper.lastError = c.lastError
  ∧ c.clear.lastError = VLE_Success := by
  cases dev <;>
    exact ⟨rfl, rfl, rfl, rfl, rfl, rfl, rfl, rfl, rfl, rfl, rfl, rfl, rfl, rfl⟩

/-- C6: `Buffer::invalidateGpu` on an accelerator buffer drops the handle
and zeroes the size without performing a device-side free (and without
touching the reallocation counter); it is a no-op on a host buffer;
`Context::invalidateGpu` applies it to the accelerator-side buffers and
drops the capability, leaving host-side buffers and the last-error slot
(code and message) unchanged. -/
theorem C6_invalidateGpu (b : Buffer) (c : Context) :
    (b.deviceType = VLDT_GPU →
        b.invalidateGpu.memory = none
      ∧ b.invalidateGpu.size = 0
      ∧ b.invalidateGpu.capacityBytes = 0
      ∧ b.invalidateGpu.numGpuFrees = b.numGpuFrees
      ∧ b.invalidateGpu.numReallocations = b.numReallocations)
  ∧ (b.deviceType = VLDT_CPU → b.invalidateGpu = b)
  ∧ c.invalidateGpu.workspaceCPU = c.workspaceCPU
  ∧ c.invalidateGpu.allOnesCPU = c.allOnesCPU
  ∧ c.invalidateGpu.lastError = c.lastError
  ∧ c.invalidateGpu.lastErrorMessage = c.lastErrorMessage
  ∧ c.invalidateGpu.workspaceGPU = c.workspaceGPU.invalidateGpu
  ∧ c.invalidateGpu.allOnesGPU = c.allOnesGPU.invalidateGpu := by
  refine ⟨?_, ?_, rfl, rfl, rfl, rfl, rfl, rfl⟩
  · intro h
    simp [Buffer.invalidateGpu, Buffer.capacityBytes, h]
  · intro h
    simp [Buffer.invalidateGpu, h]

/-- C6 witness: invalidating a freshly allocated GPU buffer drops its
memory and capacity without a device-side free. -/
theorem C6_invalidateGpu_witness :
    (Buffer.empty.init VLDT_GPU VLDT_Float 2).invalidateGpu.memory = none
  ∧ (Buffer.empty.init VLDT_GPU VLDT_Float 2).invalidateGpu.size = 0
  ∧ (Buffer.empty.init VLDT_GPU VLDT_Float 2).invalidateGpu.capacityBytes = 0
  ∧ (Buffer.empty.init VLDT_GPU VLDT_Float 2).invalidateGpu.numGpuFrees
      = (Buffer.empty.init VLDT_GPU VLDT_Float 2).numGpuFrees
  ∧ (Buffer.empty.init VLDT_GPU VLDT_Float 2).invalidateGpu.numReallocations
      = (Buffer.empty.init VLDT_GPU VLDT_Float 2).numReallocations :=
  (C6_invalidateGpu (Buffer.empty.init VLDT_GPU VLDT_Float 2) Context.new).1
    (by decide)

/-- Buffer-level correctness of the `getAllOnes` step: starting from a
buffer satisfying the all-ones invariant, the resulting buffer's memory
(if any) is all ones in its first `n` elements, the memory exists whenever
`n > 0`, and the invariant is preserved. -/
theorem getAllOnesBuffer_spec (b0 : Buffer) (dev : DeviceType) (t : DataType)
    (n : Nat) (hInv : AllOnesInv b0) :
    (∀ l, (Context.getAllOnesBuffer b0 dev t n).memory = some l →
        n ≤ l.length ∧ ∀ x ∈ l.take n, x = 1)
  ∧ (0 < n → ∃ l, (Context.getAllOnesBuffer b0 dev t n).memory = some l)
  ∧ AllOnesInv (Context.getAllOnesBuffer b0 dev t n) := by
  rcases Nat.eq_zero_or_pos n with hn | hn
  · subst hn
    have hc : ¬ b0.getNumReallocations < b0.clear.getNumReallocations := by
      simp [Buffer.getNumReallocations, Buffer.clear]
    have hres : Context.getAllOnesBuffer b0 dev t 0 = b0.clear := by
      rw [Context.getAllOnesBuffer, Buffer.init_zero, if_neg hc]
    rw [hres]
    refine ⟨?_, ?_, allOnesInv_clear b0⟩
    · intro l hl
      exact absurd hl (by simp [Buffer.clear])
    · intro h
      exact absurd h (lt_irrefl 0)
  · by_cases hfit : n * t.sizeInBytes ≤ b0.capacityBytes
        ∧ b0.deviceType = dev ∧ b0.dataType = t
    · have heq := Buffer.init_noop b0 dev t n (by omega) hfit.1 hfit.2.1 hfit.2.2
      have hres : Context.getAllOnesBuffer b0 dev t n = b0 := by
        rw [Context.getAllOnesBuffer, heq,
          if_neg (lt_irrefl b0.getNumReallocations)]
      have hnle : n ≤ b0.size := by
        have hf := hfit.1
        rw [Buffer.capacityBytes, hfit.2.2] at hf
        exact Nat.le_of_mul_le_mul_right hf (DataType.sizeInBytes_pos t)
      rw [hres]
      refine ⟨?_, ?_, hInv⟩
      · intro l hl
        have hl2 := hInv.2 l hl
        subst hl2
        rw [List.take_replicate]
        constructor
        · rw [List.length_replicate]
          exact hnle
        · intro x hx
          exact List.eq_of_mem_replicate hx
      · intro _
        cases hm : b0.memory with
        | none =>
          have := hInv.1 hm
          omega
        | some l => exact ⟨l, rfl⟩
    · have heq := Buffer.init_realloc_eq b0 dev t n (by omega) hfit
      have hres : Context.getAllOnesBuffer b0 dev t n =
          { deviceType := dev
            dataType := t
            size := n
            memory := some (List.replicate n 1)
            numReallocations := b0.numReallocations + 1
            numGpuFrees := b0.clear.numGpuFrees } := by
        rw [Context.getAllOnesBuffer, heq]
        rw [if_pos (by simp [Buffer.getNumReallocations])]
        simp
      rw [hres]
      refine ⟨?_, fun _ => ⟨List.replicate n 1, rfl⟩, ?_, ?_⟩
      · intro l hl
        have hl2 : List.replicate n 1 = l := by
          simpa using hl
        subst hl2
        rw [List.take_replicate]
        constructor
        · rw [List.length_replicate]
        · intro x hx
          exact List.eq_of_mem_replicate hx
      · intro hmem
        exact absurd hmem (by simp)
      · intro l hl
        simpa using hl.symm

/-- C5: after any successful `Context::getAllOnes(device, dataType, size)`
call on a context whose all-ones buffer satisfies the all-ones invariant
(which holds initially and is preserved by every operation), every one of
the first `size` elements of the returned buffer equals 1 — both when the
call triggers a (re)allocation (the buffer is re-filled) and when a
smaller request reuses the existing buffer; moreover the invariant still
holds afterwards. -/
theorem C5_getAllOnes_ones (c : Context) (dev : DeviceType) (t : DataType)
    (n : Nat) (hInv : AllOnesInv (c.allOnes dev)) :
    (∀ l, (c.getAllOnes dev t n).1 = some l →
        n ≤ l.length ∧ ∀ x ∈ l.take n, x = 1)
  ∧ (0 < n → ∃ l, (c.getAllOnes dev t n).1 = some l
        ∧ ∀ x ∈ l.take n, x = 1)
  ∧ AllOnesInv ((c.getAllOnes dev t n).2.allOnes dev) := by
  obtain ⟨h1, h2, h3⟩ := getAllOnesBuffer_spec (c.allOnes dev) dev t n hInv
  have hfst : (c.getAllOnes dev t n).1
      = (Context.getAllOnesBuffer (c.allOnes dev) dev t n).memory := rfl
  have hsnd : (c.getAllOnes dev t n).2.allOnes dev
      = Context.getAllOnesBuffer (c.allOnes dev) dev t n :=
    Context.allOnes_setAllOnes c dev _
  refine ⟨?_, ?_, ?_⟩
  · intro l hl
    exact h1 l (hfst ▸ hl)
  · intro hn
    obtain ⟨l, hl⟩ := h2 hn
    exact ⟨l, hfst ▸ hl, fun x hx => (h1 l hl).2 x hx⟩
  · rw [hsnd]
    exact h3

/-- C5 witness: on a fresh context, `getAllOnes(CPU, Float, 3)` returns a
buffer whose first 3 elements are all 1. -/
theorem C5_getAllOnes_ones_witness :
    ∃ l, (Context.new.getAllOnes VLDT_CPU VLDT_Float 3).1 = some l
      ∧ ∀ x ∈ l.take 3, x = 1 :=
  (C5_getAllOnes_ones Context.new VLDT_CPU VLDT_Float 3
    ⟨fun _ => rfl, fun _ hl => nomatch hl⟩).2.1 (by decide)

end vl
